import Mathlib

/-
Verification development for procrastinando/compress-media-android.

The embedding below models `src/automatic_compress.py` (the daemon) and, where
noted, `src/compress_media.py` (the one-shot script).  The filesystem is
modelled as the list of paths that currently exist; external tools (ffmpeg,
ffprobe, exiftool) are modelled as oracles describing the outcome of each
subprocess invocation (success, failure with non-zero exit, or binary not
found), since the Python code only observes those outcomes.  Exceptions are
modelled as explicit result values threaded through the same control flow as
the Python try/except blocks.
-/

set_option autoImplicit false

namespace CompressMedia

/-- Filesystem model: the list of paths that currently exist.  Only presence
matters to the code under verification (`os.path.exists`, `os.path.isfile`,
`os.remove`, `os.rename`, `os.replace`). -/
abbrev FS := List String

/-- Membership test, modelling `os.path.exists`. -/
def fsMem : FS → String → Bool
  | [], _ => false
  | p :: rest, q => if p = q then true else fsMem rest q

/-- Removal, modelling a successful `os.remove` (removing an absent path is a
no-op in this set model; the code only calls `os.remove` on paths it has
checked or just created). -/
def fsRemove : FS → String → FS
  | [], _ => []
  | p :: rest, q => if p = q then fsRemove rest q else p :: fsRemove rest q

/-- Creation of a path, modelling a tool writing its output file. -/
def fsAdd (fs : FS) (p : String) : FS :=
  if fsMem fs p then fs else p :: fs

/-- Outcome of one external tool invocation via `subprocess.run`: normal exit,
non-zero exit (raising `CalledProcessError` under `check=True`), or the binary
not being found (raising `FileNotFoundError`). -/
inductive ToolRun
  | success
  | failure
  | notFound
deriving DecidableEq

/-- Which external binary a `FileNotFoundError` refers to; the main loop
classifies the exception text by searching for "ffmpeg" / "exiftool"
(automatic_compress.py lines 404-410), `unknownTool` being the fallback. -/
inductive ToolId
  | ffmpeg
  | exiftool
  | unknownTool
deriving DecidableEq

/-- Exceptions that a pipeline function can propagate to the main loop. -/
inductive Exc
  | fnf (t : ToolId)
  | cpe
  | oserr
deriving DecidableEq

/-- Environment of one encode invocation: the run outcome, and whether a
failed run left a partial output file behind. -/
structure EncodeEnv where
  run : ToolRun
  partialOutput : Bool
deriving DecidableEq

/-- Model of `compress_video` (automatic_compress.py lines 152-180): run the
ffmpeg encode; on `CalledProcessError` remove the (possibly partial) output
and re-raise; on `FileNotFoundError` re-raise with nothing written. -/
def compress_video (fs : FS) (env : EncodeEnv) (output : String) :
    FS × Option Exc :=
  match env.run with
  | .success => (fsAdd fs output, none)
  | .failure =>
      let fs1 := if env.partialOutput then fsAdd fs output else fs
      (fsRemove fs1 output, some .cpe)
  | .notFound => (fs, some (.fnf .ffmpeg))

/-- Model of `copy_metadata_exiftool` (automatic_compress.py lines 182-207):
if the output file does not exist an explicit `FileNotFoundError` is raised
(line 185, whose message names the output path, hence `unknownTool` for the
main loop's classifier); otherwise exiftool rewrites the file in place, so the
path set is unchanged and only the run outcome matters. -/
def copy_metadata_exiftool (fs : FS) (run : ToolRun) (output : String) :
    Option Exc :=
  if fsMem fs output then
    match run with
    | .success => none
    | .failure => some .cpe
    | .notFound => some (.fnf .exiftool)
  else some (.fnf .unknownTool)

/-- Result of `process_video_file` / `process_image_file`: normal return
(`removeWarn` records whether deleting the original failed and was logged as
a warning, lines 216-217 and 250-251), or a propagated exception. -/
inductive PResult
  | ok (removeWarn : Bool)
  | raised (e : Exc)
deriving DecidableEq

/-- Environment for one `process_video_file` call. -/
structure VideoEnv where
  encode : EncodeEnv
  meta : ToolRun
  removeInputOk : Bool
deriving DecidableEq

/-- Model of `process_video_file` (automatic_compress.py lines 209-226):
encode straight to the output path, copy metadata, then delete the input; an
`OSError` from that delete is caught and logged as a warning (lines 216-217);
any exception from the first two stages reaches the outer handler which
removes the output path if it exists (lines 220-225) and re-raises. -/
def process_video_file (fs : FS) (env : VideoEnv) (input output : String) :
    FS × PResult :=
  match compress_video fs env.encode output with
  | (fs1, some e) => (fsRemove fs1 output, .raised e)
  | (fs1, none) =>
    match copy_metadata_exiftool fs1 env.meta output with
    | some e => (fsRemove fs1 output, .raised e)
    | none =>
      if env.removeInputOk then (fsRemove fs1 input, .ok false)
      else (fs1, .ok true)

/-- Environment for one `process_image_file` call. -/
structure ImageEnv where
  encode : EncodeEnv
  meta : ToolRun
  replaceOk : Bool
  removeInputOk : Bool
deriving DecidableEq

/-- The inline ffmpeg image encode inside `process_image_file` (lines
234-238): unlike `compress_video` it performs no cleanup of its own on
failure; the surrounding `finally` block removes the temp file. -/
def runImageEncode (fs : FS) (env : EncodeEnv) (temp : String) :
    FS × Option Exc :=
  match env.run with
  | .success => (fsAdd fs temp, none)
  | .failure =>
      ((if env.partialOutput then fsAdd fs temp else fs), some .cpe)
  | .notFound => (fs, some (.fnf .ffmpeg))

/-- Model of `process_image_file` (automatic_compress.py lines 228-270):
encode into a temp file, copy metadata onto it, atomically `os.replace` the
temp onto the output path, then delete the input (an `OSError` there is
caught and logged as a warning, lines 250-251).  A failing `os.replace`
raises `OSError` and leaves both paths untouched.  The `finally` block
(lines 264-270) removes the temp file if it still exists, on every path. -/
def process_image_file (fs : FS) (env : ImageEnv) (input output temp : String) :
    FS × PResult :=
  let body : FS × PResult :=
    match runImageEncode fs env.encode temp with
    | (fsA, some e) => (fsA, .raised e)
    | (fsA, none) =>
      match copy_metadata_exiftool fsA env.meta temp with
      | some e => (fsA, .raised e)
      | none =>
        if env.replaceOk then
          let fsB := fsAdd (fsRemove fsA temp) output
          if env.removeInputOk then (fsRemove fsB input, .ok false)
          else (fsB, .ok true)
        else (fsA, .raised .oserr)
  (fsRemove body.1 temp, body.2)

/-- Python `str.startswith`, over the character list. -/
def strStartsWith (s p : String) : Bool := p.data.isPrefixOf s.data

/-- Python `str.endswith`, over the character list. -/
def strEndsWith (s p : String) : Bool := p.data.isSuffixOf s.data

/-- Python `str.lower`, over the character list. -/
def strToLower (s : String) : String := ⟨s.data.map Char.toLower⟩

/-- Split a character list at its last dot: `some (stem, ext)` with the dot
belonging to neither part, or `none` when there is no dot. -/
def lastDotSplit : List Char → Option (List Char × List Char)
  | [] => none
  | c :: rest =>
    match lastDotSplit rest with
    | some (st, ex) => some (c :: st, ex)
    | none => if c = '.' then some ([], rest) else none

/-- Model of `os.path.join` for the shapes that occur in the code
(joining a directory with a file name). -/
def pathJoin (a b : String) : String :=
  if strStartsWith b "/" then b
  else if strEndsWith a "/" || a = "" then a ++ b
  else a ++ "/" ++ b

/-- Model of `os.path.splitext`: split at the last dot.  All names reaching
this code have already passed the hidden-file filter (they do not start with
a dot), for which Python's splitext coincides with a plain last-dot split. -/
def splitext (s : String) : String × String :=
  match lastDotSplit s.data with
  | none => (s, "")
  | some (st, ex) => (⟨st⟩, ⟨'.' :: ex⟩)

/-- The temporary image name built in `process_image_file` (line 229-230):
`f"{base}_temp_{os.getpid()}{ext}"` where `(base, ext)` splits the output
path. -/
def tempOf (output pid : String) : String :=
  (splitext output).1 ++ "_temp_" ++ pid ++ (splitext output).2

/-- The per-process tool-availability flags (`ffprobe_found`, `ffmpeg_found`,
`exiftool_found`, automatic_compress.py lines 281-283). -/
structure Flags where
  ffprobe_found : Bool
  ffmpeg_found : Bool
  exiftool_found : Bool
deriving DecidableEq

/-- The value the flags get once, before the main loop starts (lines
281-283). -/
def initialFlags : Flags := ⟨true, true, true⟩

/-- Environment of one file in one cycle: whether the path is a regular file,
the value `get_video_bitrate` would return for it if called, the stage
outcomes for video / image processing if invoked, and whether the plain
`os.rename` move would succeed. -/
structure FileEnv where
  isFile : Bool
  probeKbps : ℚ
  video : VideoEnv
  renameOk : Bool
  image : ImageEnv
deriving DecidableEq

/-- Instrumentation of one per-file dispatch: which tools were invoked and
which output path the loop computed for the file. -/
structure Instr where
  probed : Bool
  videoCalled : Bool
  imageCalled : Bool
  renamed : Bool
  outputPath : String
deriving DecidableEq

/-- Terminal per-file outcome of one iteration of the inner loop of the
daemon (automatic_compress.py lines 347-414). -/
inductive Outcome
  | skippedHidden
  | notAFile
  | outputExists
  | noFfmpegVideo
  | probeMissing
  | videoDone (removeWarn : Bool)
  | videoError (t : Option ToolId)
  | movedOk
  | moveError
  | noFfmpegImage
  | imageDone (removeWarn : Bool)
  | imageError (t : Option ToolId)
  | unsupported
deriving DecidableEq

/-- Result of one per-file dispatch: updated flags and filesystem, the
instrumentation, the outcome, and whether the file counted as processed
(`file_processed_successfully`, lines 358 and 398-399). -/
structure StepOut where
  flags : Flags
  fs : FS
  instr : Instr
  outcome : Outcome
  counted : Bool
deriving DecidableEq

/-- Dispatch on the result of `process_video_file` inside the main loop: a
normal return counts the file as processed; a `FileNotFoundError` clears the
flag of the tool named in the exception (lines 401-411); any other exception
is logged and the loop moves on (lines 412-414). -/
def videoStep (flags : Flags) (fs : FS) (env : VideoEnv)
    (input output : String) (instr : Instr) : StepOut :=
  match process_video_file fs env input output with
  | (fs1, .ok w) => ⟨flags, fs1, instr, .videoDone w, true⟩
  | (fs1, .raised (.fnf .ffmpeg)) =>
      ⟨{ flags with ffmpeg_found := false }, fs1, instr,
        .videoError (some .ffmpeg), false⟩
  | (fs1, .raised (.fnf .exiftool)) =>
      ⟨{ flags with exiftool_found := false }, fs1, instr,
        .videoError (some .exiftool), false⟩
  | (fs1, .raised (.fnf .unknownTool)) =>
      ⟨flags, fs1, instr, .videoError (some .unknownTool), false⟩
  | (fs1, .raised .cpe) => ⟨flags, fs1, instr, .videoError none, false⟩
  | (fs1, .raised .oserr) => ⟨flags, fs1, instr, .videoError none, false⟩

/-- Dispatch on the result of `process_image_file` inside the main loop,
mirroring `videoStep`. -/
def imageStep (flags : Flags) (fs : FS) (env : ImageEnv)
    (input output temp : String) (instr : Instr) : StepOut :=
  match process_image_file fs env input output temp with
  | (fs1, .ok w) => ⟨flags, fs1, instr, .imageDone w, true⟩
  | (fs1, .raised (.fnf .ffmpeg)) =>
      ⟨{ flags with ffmpeg_found := false }, fs1, instr,
        .imageError (some .ffmpeg), false⟩
  | (fs1, .raised (.fnf .exiftool)) =>
      ⟨{ flags with exiftool_found := false }, fs1, instr,
        .imageError (some .exiftool), false⟩
  | (fs1, .raised (.fnf .unknownTool)) =>
      ⟨flags, fs1, instr, .imageError (some .unknownTool), false⟩
  | (fs1, .raised .cpe) => ⟨flags, fs1, instr, .imageError none, false⟩
  | (fs1, .raised .oserr) => ⟨flags, fs1, instr, .imageError none, false⟩

/-- Model of one iteration of the daemon's inner per-file loop
(automatic_compress.py lines 347-414): hidden-file filter, regular-file
check, output-existence check, then extension dispatch.  For `.mp4` the
bitrate is probed (a return of `-1` marks ffprobe, and with it ffmpeg, as
missing, lines 368-371); the file is re-encoded when the bitrate is zero or
above 110% of the target (line 374), otherwise moved with `os.rename`
(lines 382-386).  For `.jpg`/`.jpeg` the image pipeline runs (line 395).
Files of any other extension fall through with no action. -/
def handle_file (flags : Flags) (fs : FS) (targetKbps : ℚ)
    (outDir dir filename pid : String) (env : FileEnv) : StepOut :=
  let input := pathJoin dir filename
  let output := pathJoin outDir filename
  let instr0 : Instr := ⟨false, false, false, false, output⟩
  if strStartsWith filename "." then ⟨flags, fs, instr0, .skippedHidden, false⟩
  else if env.isFile = false then ⟨flags, fs, instr0, .notAFile, false⟩
  else if fsMem fs output then ⟨flags, fs, instr0, .outputExists, false⟩
  else
    let lower := strToLower filename
    if strEndsWith lower ".mp4" then
      if flags.ffmpeg_found = false then
        ⟨flags, fs, instr0, .noFfmpegVideo, false⟩
      else
        let instr1 := { instr0 with probed := true }
        if env.probeKbps = -1 then
          ⟨{ flags with ffprobe_found := false, ffmpeg_found := false },
            fs, instr1, .probeMissing, false⟩
        else if env.probeKbps = 0 ∨ env.probeKbps > targetKbps * (11 / 10) then
          videoStep flags fs env.video input output
            { instr1 with videoCalled := true }
        else
          if env.renameOk then
            ⟨flags, fsAdd (fsRemove fs input) output,
              { instr1 with renamed := true }, .movedOk, true⟩
          else
            ⟨flags, fs, { instr1 with renamed := true }, .moveError, false⟩
    else if strEndsWith lower ".jpg" || strEndsWith lower ".jpeg" then
      if flags.ffmpeg_found = false then
        ⟨flags, fs, instr0, .noFfmpegImage, false⟩
      else
        imageStep flags fs env.image input output (tempOf output pid)
          { instr0 with imageCalled := true }
    else ⟨flags, fs, instr0, .unsupported, false⟩

/-- Sequential processing of the files of one scan, threading flags and
filesystem through `handle_file` in listing order. -/
def run_files (flags : Flags) (fs : FS) (targetKbps : ℚ)
    (outDir dir pid : String) :
    List (String × FileEnv) → Flags × FS × List StepOut
  | [] => (flags, fs, [])
  | (f, env) :: rest =>
    let so := handle_file flags fs targetKbps outDir dir f pid env
    let r := run_files so.flags so.fs targetKbps outDir dir pid rest
    (r.1, r.2.1, so :: r.2.2)

/-- The fractional hour computed by the main loop (lines 308-309):
`now.hour + now.minute / 60.0`. -/
def hour_float (h m : ℕ) : ℚ := (h : ℚ) + (m : ℚ) / 60

/-- The schedule gate of the main loop (lines 310-313): same-day window when
`time_from < time_to`, otherwise the overnight branch. -/
def is_time_allowed (tf tt : ℚ) (h m : ℕ) : Bool :=
  let hour := hour_float h m
  if tf < tt then decide (tf ≤ hour) && decide (hour < tt)
  else decide (hour ≥ tf) || decide (hour < tt)

/-- The exiftool command built by `copy_metadata_exiftool` (lines 189-192). -/
def exiftool_copy_cmd (input output : String) : List String :=
  ["exiftool", "-m", "-TagsFromFile", input,
   "-all:all>all:all", "-unsafe", "-overwrite_original", output]

/-- The ffmpeg command built by `process_image_file` for the image encode
(lines 234-237); `quality` is the already-stringified quality setting. -/
def ffmpeg_image_cmd (input quality temp : String) : List String :=
  ["ffmpeg", "-y", "-i", input, "-q:v", quality, "-f", "image2", temp]

/-- The external commands a successful image pipeline run invokes, in order
(lines 234-245): the ffmpeg encode into the temp file, then the exiftool
metadata copy onto the temp file.  No further external command runs before
the `os.replace` publish. -/
def image_pipeline_commands (input temp quality : String) : List (List String) :=
  [ffmpeg_image_cmd input quality temp, exiftool_copy_cmd input temp]

/-- Modelled from the spec for comparison with the code: §4.3 says that for
images the output filename is computed "by substituting the extension with
the configured output image format (`jpg` or `avif`)". -/
def spec_image_output_name (filename fmt : String) : String :=
  (splitext filename).1 ++ "." ++ fmt

/-- The delete-original policy of the repository: `compress_media.py` line 52
hard-codes `delete_original = "yes"`, and `automatic_compress.py`
unconditionally deletes originals after successful processing (lines 214 and
248); there is no configuration flag for it. -/
def delete_original : Bool := true

/-- State carried across cycles that the tool-availability logic reads: the
flags themselves and the persistent `.ffmpeg_checked` / `.exiftool_checked`
marker files (lines 320-332). -/
structure CycleState where
  flags : Flags
  ffmpegMarker : Bool
  exiftoolMarker : Bool
deriving DecidableEq

/-- Environment of the start-of-cycle tool recheck: the outcome of the
`ffmpeg -version` and `exiftool -ver` probes, were they run. -/
structure RecheckEnv where
  ffmpegVersion : ToolRun
  exiftoolVer : ToolRun
deriving DecidableEq

/-- Result of the start-of-cycle recheck: the new state plus whether each
version probe was actually invoked. -/
structure RecheckOut where
  state : CycleState
  ffmpegChecked : Bool
  exiftoolChecked : Bool
deriving DecidableEq

/-- Model of the start-of-cycle tool recheck (lines 320-332): a tool is
re-probed only when its flag is down AND its marker file does not exist; the
marker file is then created, so the re-probe happens at most once in the
life of the process.  A `CalledProcessError` from the version probe sets the
flag back to true (lines 323 and 330); a `FileNotFoundError` leaves it
false.  The flags are never reset wholesale, and `ffprobe_found` has no
recheck at all. -/
def recheck (st : CycleState) (env : RecheckEnv) : RecheckOut :=
  let f :=
    if st.flags.ffmpeg_found = false ∧ st.ffmpegMarker = false then
      (match env.ffmpegVersion with
       | .notFound => false
       | .failure => true
       | .success => true, true, true)
    else (st.flags.ffmpeg_found, st.ffmpegMarker, false)
  let e :=
    if st.flags.exiftool_found = false ∧ st.exiftoolMarker = false then
      (match env.exiftoolVer with
       | .notFound => false
       | .failure => true
       | .success => true, true, true)
    else (st.flags.exiftool_found, st.exiftoolMarker, false)
  ⟨⟨⟨st.flags.ffprobe_found, f.1, e.1⟩, f.2.1, e.2.1⟩, f.2.2, e.2.2⟩

/-- Environment of one full processing cycle. -/
structure CycleEnv where
  re : RecheckEnv
  files : List (String × FileEnv)
deriving DecidableEq

/-- Model of one allowed-time cycle of the main loop: the start-of-cycle
tool recheck (lines 320-332) followed by the per-file loop (lines 335-414),
returning the state for the next cycle, the filesystem, the per-file steps
and which version probes ran. -/
def run_cycle (st : CycleState) (fs : FS) (targetKbps : ℚ)
    (outDir dir pid : String) (env : CycleEnv) :
    CycleState × FS × List StepOut × Bool × Bool :=
  let ro := recheck st env.re
  let r := run_files ro.state.flags fs targetKbps outDir dir pid env.files
  (⟨r.1, ro.state.ffmpegMarker, ro.state.exiftoolMarker⟩, r.2.1, r.2.2,
    ro.ffmpegChecked, ro.exiftoolChecked)

/-- Model of Python's `str.strip()`: drop whitespace from both ends. -/
def pyStrip (s : String) : String :=
  ⟨(s.data.dropWhile Char.isWhitespace).reverse.dropWhile Char.isWhitespace
    |>.reverse⟩

/-- Digit-string accumulator for `pyInt?`: ASCII digits with single
underscores allowed between digits, as accepted by CPython's `int()`. -/
def pyDigitsAux : ℕ → List Char → Option ℕ
  | acc, [] => some acc
  | acc, '_' :: c :: rest =>
      if c.isDigit then pyDigitsAux (acc * 10 + (c.toNat - 48)) rest else none
  | acc, c :: rest =>
      if c.isDigit then pyDigitsAux (acc * 10 + (c.toNat - 48)) rest else none

/-- Model of CPython's `int(str)` on an already-stripped string (restricted
to ASCII digits): optional sign followed by digits, `none` meaning
`ValueError`. -/
def pyInt? (s : String) : Option ℤ :=
  let nat? : List Char → Option ℕ := fun l =>
    match l with
    | c :: rest => if c.isDigit then pyDigitsAux (c.toNat - 48) rest else none
    | [] => none
  match s.data with
  | '-' :: rest => (nat? rest).map (fun n => -(n : ℤ))
  | '+' :: rest => (nat? rest).map (fun n => (n : ℤ))
  | l => (nat? l).map (fun n => (n : ℤ))

/-- Outcome of the `ffprobe` invocation in `get_video_bitrate` (lines
100-106).  For the `CalledProcessError` case the two string tests the code
performs are carried as oracle results: `na` is `"N/A" in stderr or
"bit_rate=N/A" in stdout` (line 119), `regexMatch` the capture of
`re.search(r"bitrate: (digits) kb/s", stderr.lower())` (line 122), a natural
number because the capture group is `\d+`. -/
inductive ProbeRun
  | success (stdout : String)
  | cpe (na : Bool) (regexMatch : Option ℕ)
  | notFound
  | otherExc
deriving DecidableEq

/-- Outcome of the `ffmpeg -i` fallback (lines 128-144): either the process
completes and the regex search on its stderr yields `stderrMatch` (again a
`\d+` capture), or anything in the fallback raises (including ffmpeg itself
missing), which the inner handler turns into 0. -/
inductive FallbackRun
  | completes (stderrMatch : Option ℕ)
  | raises
deriving DecidableEq

/-- Model of `get_video_bitrate` (automatic_compress.py lines 99-150).  On a
successful probe the stripped stdout is compared with "N/A", then parsed with
`int()`; a parse failure (`ValueError`) yields 0.  On `CalledProcessError`
the N/A test, then the stderr regex, then the ffmpeg fallback are tried in
order, any failure yielding 0.  A `FileNotFoundError` for ffprobe yields -1,
and any other exception yields 0. -/
def get_video_bitrate (run : ProbeRun) (fb : FallbackRun) : ℚ :=
  match run with
  | .success out =>
    let s := pyStrip out
    if s = "N/A" then 0
    else
      match pyInt? s with
      | some n => (n : ℚ) / 1000
      | none => 0
  | .cpe na m =>
    if na then 0
    else
      match m with
      | some k => (k : ℚ)
      | none =>
        match fb with
        | .completes (some k) => (k : ℚ)
        | .completes none => 0
        | .raises => 0
  | .notFound => -1
  | .otherExc => 0

/-- A file environment in which every external stage succeeds and the path is
a regular file, with the given probed bitrate; used to instantiate theorems
at concrete inputs. -/
def okFileEnv (k : ℚ) : FileEnv :=
  ⟨true, k, ⟨⟨.success, false⟩, .success, true⟩, true,
    ⟨⟨.success, false⟩, .success, true, true⟩⟩

/-- A file environment in which every stage succeeds except that deleting the
original input fails (the `os.remove` of the input raises `OSError`). -/
def removeFailFileEnv (k : ℚ) : FileEnv :=
  ⟨true, k, ⟨⟨.success, false⟩, .success, false⟩, true,
    ⟨⟨.success, false⟩, .success, true, false⟩⟩

/-
Helper lemmas about the filesystem model and the dispatch helpers.
-/

@[simp] theorem fsMem_fsRemove_self (fs : FS) (p : String) :
    fsMem (fsRemove fs p) p = false := by
  induction fs with
  | nil => rfl
  | cons q rest ih =>
    by_cases h : q = p
    · simp [fsRemove, h, ih]
    · simp [fsRemove, fsMem, h, ih]

theorem fsMem_fsRemove_ne (fs : FS) (p q : String) (h : q ≠ p) :
    fsMem (fsRemove fs p) q = fsMem fs q := by
  induction fs with
  | nil => rfl
  | cons r rest ih =>
    have hpq : ¬ p = q := fun e => h e.symm
    by_cases hr : r = p
    · have hrq : ¬ r = q := fun hq => h (hq ▸ hr)
      simp [fsRemove, fsMem, hr, hrq, hpq, h, ih]
    · by_cases hrq : r = q
      · simp [fsRemove, fsMem, hr, hrq, hpq, h]
      · simp [fsRemove, fsMem, hr, hrq, hpq, h, ih]

@[simp] theorem fsMem_fsAdd_self (fs : FS) (p : String) :
    fsMem (fsAdd fs p) p = true := by
  unfold fsAdd
  by_cases h : fsMem fs p
  · simp [h]
  · simp [h, fsMem]

theorem fsMem_fsAdd_ne (fs : FS) (p q : String) (h : q ≠ p) :
    fsMem (fsAdd fs p) q = fsMem fs q := by
  unfold fsAdd
  have h' : ¬ p = q := fun e => h e.symm
  by_cases hm : fsMem fs p
  · simp [hm]
  · simp [hm, fsMem, h']

theorem videoStep_instr (flags : Flags) (fs : FS) (env : VideoEnv)
    (i o : String) (instr : Instr) :
    (videoStep flags fs env i o instr).instr = instr := by
  rcases hpr : process_video_file fs env i o with ⟨fs1, r⟩
  rcases r with w | e
  · simp [videoStep, hpr]
  · rcases e with t | _ | _
    · rcases t <;> simp [videoStep, hpr]
    · simp [videoStep, hpr]
    · simp [videoStep, hpr]

theorem imageStep_instr (flags : Flags) (fs : FS) (env : ImageEnv)
    (i o temp : String) (instr : Instr) :
    (imageStep flags fs env i o temp instr).instr = instr := by
  rcases hpr : process_image_file fs env i o temp with ⟨fs1, r⟩
  rcases r with w | e
  · simp [imageStep, hpr]
  · rcases e with t | _ | _
    · rcases t <;> simp [imageStep, hpr]
    · simp [imageStep, hpr]
    · simp [imageStep, hpr]

theorem videoStep_ffprobe (flags : Flags) (fs : FS) (env : VideoEnv)
    (i o : String) (instr : Instr) :
    (videoStep flags fs env i o instr).flags.ffprobe_found =
      flags.ffprobe_found := by
  rcases hpr : process_video_file fs env i o with ⟨fs1, r⟩
  rcases r with w | e
  · simp [videoStep, hpr]
  · rcases e with t | _ | _
    · rcases t <;> simp [videoStep, hpr]
    · simp [videoStep, hpr]
    · simp [videoStep, hpr]

theorem imageStep_ffprobe (flags : Flags) (fs : FS) (env : ImageEnv)
    (i o temp : String) (instr : Instr) :
    (imageStep flags fs env i o temp instr).flags.ffprobe_found =
      flags.ffprobe_found := by
  rcases hpr : process_image_file fs env i o temp with ⟨fs1, r⟩
  rcases r with w | e
  · simp [imageStep, hpr]
  · rcases e with t | _ | _
    · rcases t <;> simp [imageStep, hpr]
    · simp [imageStep, hpr]
    · simp [imageStep, hpr]

theorem handle_file_noFfmpeg (flags : Flags) (fs : FS) (tgt : ℚ)
    (outDir dir filename pid : String) (env : FileEnv)
    (h : flags.ffmpeg_found = false) :
    (handle_file flags fs tgt outDir dir filename pid env).flags = flags ∧
    (handle_file flags fs tgt outDir dir filename pid env).instr.probed = false ∧
    (handle_file flags fs tgt outDir dir filename pid env).instr.videoCalled = false ∧
    (handle_file flags fs tgt outDir dir filename pid env).instr.imageCalled = false := by
  unfold handle_file
  simp only [h]
  split_ifs <;> simp_all

theorem run_files_noFfmpeg (tgt : ℚ) (outDir dir pid : String) :
    ∀ (files : List (String × FileEnv)) (flags : Flags) (fs : FS),
    flags.ffmpeg_found = false →
    ∀ so ∈ (run_files flags fs tgt outDir dir pid files).2.2,
      so.instr.probed = false ∧ so.instr.videoCalled = false ∧
      so.instr.imageCalled = false := by
  intro files
  induction files with
  | nil =>
    intro flags fs h so hso
    simp [run_files] at hso
  | cons fe rest ih =>
    intro flags fs h so hso
    rcases fe with ⟨f, env⟩
    simp only [run_files, List.mem_cons] at hso
    rcases hso with rfl | hmem
    · exact (handle_file_noFfmpeg flags fs tgt outDir dir f pid env h).2
    · have hfl := (handle_file_noFfmpeg flags fs tgt outDir dir f pid env h).1
      exact ih _ _ (by rw [hfl]; exact h) so hmem

theorem handle_file_ffprobe_mono (flags : Flags) (fs : FS) (tgt : ℚ)
    (outDir dir filename pid : String) (env : FileEnv)
    (h : flags.ffprobe_found = false) :
    (handle_file flags fs tgt outDir dir filename pid env).flags.ffprobe_found
      = false := by
  by_cases h1 : strStartsWith filename "." = true
  · simp_all [handle_file]
  · by_cases h2 : env.isFile = false
    · simp_all [handle_file]
    · by_cases h3 : fsMem fs (pathJoin outDir filename) = true
      · simp_all [handle_file]
      · by_cases h4 : strEndsWith (strToLower filename) ".mp4" = true
        · by_cases h5 : flags.ffmpeg_found = false
          · simp_all [handle_file]
          · by_cases h6 : env.probeKbps = -1
            · simp_all [handle_file]
            · by_cases h7 : env.probeKbps = 0 ∨ env.probeKbps > tgt * (11 / 10)
              · simp_all [handle_file, videoStep_ffprobe]
              · have h7b : ¬ tgt * (11 / 10) < env.probeKbps := by
                  push_neg at h7
                  exact not_lt.mpr h7.2
                by_cases h8 : env.renameOk = true
                · simp_all [handle_file, if_neg h7b]
                · simp_all [handle_file, if_neg h7b]
        · by_cases h9 : strEndsWith (strToLower filename) ".jpg" = true ∨
              strEndsWith (strToLower filename) ".jpeg" = true
          · by_cases h5 : flags.ffmpeg_found = false
            · simp_all [handle_file]
            · simp_all [handle_file, imageStep_ffprobe]
          · simp_all [handle_file]

theorem run_files_ffprobe_mono (tgt : ℚ) (outDir dir pid : String) :
    ∀ (files : List (String × FileEnv)) (flags : Flags) (fs : FS),
    flags.ffprobe_found = false →
    (run_files flags fs tgt outDir dir pid files).1.ffprobe_found = false := by
  intro files
  induction files with
  | nil => intro flags fs h; simpa [run_files] using h
  | cons fe rest ih =>
    intro flags fs h
    rcases fe with ⟨f, env⟩
    simp only [run_files]
    exact ih _ _ (handle_file_ffprobe_mono flags fs tgt outDir dir f pid env h)

/-
Claim theorems.
-/

/-- C1: for every pipeline stage failure while processing a file (video
encode, video metadata transfer, image encode, image metadata transfer,
image finalize replace), after the executor returns, the output path and the
temporary artifact do not exist and the input file still exists
unchanged. -/
theorem c1_stage_failure_cleanup :
    (∀ (fs : FS) (env : VideoEnv) (inp out : String),
      fsMem fs inp = true → fsMem fs out = false → inp ≠ out →
      ∀ e, (process_video_file fs env inp out).2 = .raised e →
        fsMem (process_video_file fs env inp out).1 out = false ∧
        fsMem (process_video_file fs env inp out).1 inp = true) ∧
    (∀ (fs : FS) (env : ImageEnv) (inp out temp : String),
      fsMem fs inp = true → fsMem fs out = false → fsMem fs temp = false →
      inp ≠ out → inp ≠ temp → out ≠ temp →
      ∀ e, (process_image_file fs env inp out temp).2 = .raised e →
        fsMem (process_image_file fs env inp out temp).1 out = false ∧
        fsMem (process_image_file fs env inp out temp).1 temp = false ∧
        fsMem (process_image_file fs env inp out temp).1 inp = true) := by
  constructor
  · rintro fs ⟨⟨er, ep⟩, m, ri⟩ inp out hin hout hne e hraised
    cases er <;> cases ep <;> cases m <;> cases ri <;>
      simp_all [process_video_file, compress_video, copy_metadata_exiftool,
        fsMem_fsRemove_ne, fsMem_fsAdd_ne]
  · rintro fs ⟨⟨er, ep⟩, m, rep, ri⟩ inp out temp hin hout htemp hio hit hot e hraised
    cases er <;> cases ep <;> cases m <;> cases rep <;> cases ri <;>
      simp_all [process_image_file, runImageEncode, copy_metadata_exiftool,
        fsMem_fsRemove_ne, fsMem_fsAdd_ne]

/-- Witness for C1: a concrete failing video encode, with the cleanup
conclusion instantiated. -/
theorem c1_stage_failure_cleanup_witness :
    fsMem ["cam/in.mp4"] "cam/in.mp4" = true ∧
    fsMem ["cam/in.mp4"] "out/in.mp4" = false ∧
    "cam/in.mp4" ≠ "out/in.mp4" ∧
    (process_video_file ["cam/in.mp4"] ⟨⟨.failure, true⟩, .success, true⟩
        "cam/in.mp4" "out/in.mp4").2 = .raised .cpe ∧
    (fsMem (process_video_file ["cam/in.mp4"] ⟨⟨.failure, true⟩, .success, true⟩
        "cam/in.mp4" "out/in.mp4").1 "out/in.mp4" = false ∧
     fsMem (process_video_file ["cam/in.mp4"] ⟨⟨.failure, true⟩, .success, true⟩
        "cam/in.mp4" "out/in.mp4").1 "cam/in.mp4" = true) :=
  ⟨by decide, by decide, by decide, by decide,
    c1_stage_failure_cleanup.1 ["cam/in.mp4"] ⟨⟨.failure, true⟩, .success, true⟩
      "cam/in.mp4" "out/in.mp4" (by decide) (by decide) (by decide) .cpe (by decide)⟩

/-- C2: for an eligible `.mp4` file whose probe did not report the prober
missing, the daemon invokes the video transcode pipeline iff the probed
bitrate is zero or strictly above 110% of the target, and otherwise moves
the file through unencoded; at target 1000 kbps a probed 1099.9 kbps is
passed through and a probed 1100.1 kbps is transcoded. -/
theorem c2_transcode_decision :
    (∀ (flags : Flags) (fs : FS) (targetKbps : ℚ) (outDir dir filename pid : String)
      (env : FileEnv),
      flags.ffmpeg_found = true →
      strStartsWith filename "." = false →
      env.isFile = true →
      fsMem fs (pathJoin outDir filename) = false →
      strEndsWith (strToLower filename) ".mp4" = true →
      env.probeKbps ≠ -1 →
      (((handle_file flags fs targetKbps outDir dir filename pid env).instr.videoCalled
          = true) ↔
        (env.probeKbps = 0 ∨ env.probeKbps > targetKbps * (11 / 10))) ∧
      (¬ (env.probeKbps = 0 ∨ env.probeKbps > targetKbps * (11 / 10)) →
        (handle_file flags fs targetKbps outDir dir filename pid env).instr.renamed
          = true)) ∧
    (handle_file initialFlags [] 1000 "out" "cam" "clip.mp4" "7"
        (okFileEnv (10999 / 10))).instr.videoCalled = false ∧
    (handle_file initialFlags [] 1000 "out" "cam" "clip.mp4" "7"
        (okFileEnv (10999 / 10))).instr.renamed = true ∧
    (handle_file initialFlags [] 1000 "out" "cam" "clip.mp4" "7"
        (okFileEnv (11001 / 10))).instr.videoCalled = true := by
  have main : ∀ (flags : Flags) (fs : FS) (targetKbps : ℚ)
      (outDir dir filename pid : String) (env : FileEnv),
      flags.ffmpeg_found = true →
      strStartsWith filename "." = false →
      env.isFile = true →
      fsMem fs (pathJoin outDir filename) = false →
      strEndsWith (strToLower filename) ".mp4" = true →
      env.probeKbps ≠ -1 →
      (((handle_file flags fs targetKbps outDir dir filename pid env).instr.videoCalled
          = true) ↔
        (env.probeKbps = 0 ∨ env.probeKbps > targetKbps * (11 / 10))) ∧
      (¬ (env.probeKbps = 0 ∨ env.probeKbps > targetKbps * (11 / 10)) →
        (handle_file flags fs targetKbps outDir dir filename pid env).instr.renamed
          = true) := by
    intro flags fs tgt outDir dir filename pid env hff hdot hfile hout hmp4 hne
    by_cases hc : env.probeKbps = 0 ∨ env.probeKbps > tgt * (11 / 10)
    · constructor
      · rw [iff_true_right hc]
        simp [handle_file, hdot, hfile, hout, hmp4, hff, hne, hc,
          videoStep_instr]
      · intro hnc; exact absurd hc hnc
    · have hc2 : ¬ tgt * (11 / 10) < env.probeKbps := by
        push_neg at hc
        exact not_lt.mpr hc.2
      constructor
      · constructor
        · intro hv
          exfalso
          revert hv
          by_cases hr : env.renameOk = true <;>
            simp [handle_file, hdot, hfile, hout, hmp4, hff, hne, if_neg hc2,
              hc, hr]
        · intro hcc; exact absurd hcc hc
      · intro _
        by_cases hr : env.renameOk = true <;>
          simp [handle_file, hdot, hfile, hout, hmp4, hff, hne, if_neg hc2,
            hc, hr]
  refine ⟨main, ?_, ?_, ?_⟩
  · have h1 := main initialFlags [] 1000 "out" "cam" "clip.mp4" "7"
      (okFileEnv (10999 / 10)) rfl (by decide) rfl rfl (by decide)
      (by norm_num [okFileEnv])
    have hc : ¬ ((okFileEnv (10999 / 10)).probeKbps = 0 ∨
        (okFileEnv (10999 / 10)).probeKbps > 1000 * (11 / 10)) := by
      rw [not_or]
      constructor <;> norm_num [okFileEnv]
    cases hvb : (handle_file initialFlags [] 1000 "out" "cam" "clip.mp4" "7"
        (okFileEnv (10999 / 10))).instr.videoCalled
    · rfl
    · exact absurd (h1.1.mp hvb) hc
  · have h1 := main initialFlags [] 1000 "out" "cam" "clip.mp4" "7"
      (okFileEnv (10999 / 10)) rfl (by decide) rfl rfl (by decide)
      (by norm_num [okFileEnv])
    refine h1.2 ?_
    rw [not_or]
    constructor <;> norm_num [okFileEnv]
  · have h2 := main initialFlags [] 1000 "out" "cam" "clip.mp4" "7"
      (okFileEnv (11001 / 10)) rfl (by decide) rfl rfl (by decide)
      (by norm_num [okFileEnv])
    exact h2.1.mpr (Or.inr (by norm_num [okFileEnv]))

/-- Witness for C2: the general decision rule instantiated at a concrete
zero-bitrate probe. -/
theorem c2_transcode_decision_witness :
    initialFlags.ffmpeg_found = true ∧
    strStartsWith "v.mp4" "." = false ∧
    (okFileEnv 0).isFile = true ∧
    fsMem [] (pathJoin "out" "v.mp4") = false ∧
    strEndsWith (strToLower "v.mp4") ".mp4" = true ∧
    (okFileEnv 0).probeKbps ≠ -1 ∧
    (((handle_file initialFlags [] 3000 "out" "cam" "v.mp4" "7"
        (okFileEnv 0)).instr.videoCalled = true) ↔
      ((okFileEnv 0).probeKbps = 0 ∨ (okFileEnv 0).probeKbps > 3000 * (11 / 10))) :=
  ⟨rfl, by decide, rfl, rfl, by decide, by decide,
    (c2_transcode_decision.1 initialFlags [] 3000 "out" "cam" "v.mp4" "7"
      (okFileEnv 0) rfl (by decide) rfl rfl (by decide) (by decide)).1⟩

/-- C3: with hour computed as `now.hour + now.minute / 60` and window bounds
in `[0, 24)`, the schedule gate allows processing iff `start <= hour < end`
for same-day windows (`start < end`), and iff `hour >= start` or
`hour < end` for overnight windows (`start >= end`). -/
theorem c3_schedule_gate :
    ∀ (tf tt : ℚ) (h m : ℕ),
    0 ≤ tf → tf < 24 → 0 ≤ tt → tt < 24 → h < 24 → m < 60 →
    ((tf < tt → (is_time_allowed tf tt h m = true ↔
        (tf ≤ hour_float h m ∧ hour_float h m < tt))) ∧
     (tf ≥ tt → (is_time_allowed tf tt h m = true ↔
        (hour_float h m ≥ tf ∨ hour_float h m < tt)))) := by
  intro tf tt h m _ _ _ _ _ _
  constructor
  · intro hlt
    simp [is_time_allowed, hlt]
  · intro hge
    have hnlt : ¬ tf < tt := not_lt.mpr hge
    simp [is_time_allowed, hnlt]

/-- Witness for C3: the default overnight window 23.5-7.25 evaluated at
02:00. -/
theorem c3_schedule_gate_witness :
    (0:ℚ) ≤ 23 ∧ (23:ℚ) < 24 ∧ (0:ℚ) ≤ 7 ∧ (7:ℚ) < 24 ∧ 2 < 24 ∧ 0 < 60 ∧
    (23:ℚ) ≥ 7 ∧
    (is_time_allowed 23 7 2 0 = true ↔
      (hour_float 2 0 ≥ 23 ∨ hour_float 2 0 < 7)) :=
  ⟨by decide, by decide, by decide, by decide, by decide, by decide, by decide,
    (c3_schedule_gate 23 7 2 0 (by decide) (by decide) (by decide) (by decide)
      (by decide) (by decide)).2 (by decide)⟩

/-- C4 counterexample: the delete-original policy is in force (originals are
deleted after successful processing), yet when the output already exists the
input file is left in place, refuting "the input file is removed iff
delete_original is enabled". -/
theorem c4_skip_counterexample :
    delete_original = true ∧
    (handle_file initialFlags ["cam/a.jpg", "out/a.jpg"] 3000 "out" "cam"
        "a.jpg" "7" (okFileEnv 0)).outcome = .outputExists ∧
    fsMem (handle_file initialFlags ["cam/a.jpg", "out/a.jpg"] 3000 "out" "cam"
        "a.jpg" "7" (okFileEnv 0)).fs "cam/a.jpg" = true :=
  ⟨rfl, by decide, by decide⟩

/-- C4 (amended): for every scanned file whose output path already exists,
the pipeline produces the skipped outcome without invoking any encoder or
prober, and the input file is always left in place (the daemon has no
delete_original option and never removes the input on this path). -/
theorem c4_skip_exists_amended :
    ∀ (flags : Flags) (fs : FS) (tgt : ℚ) (outDir dir filename pid : String)
      (env : FileEnv),
    strStartsWith filename "." = false →
    env.isFile = true →
    fsMem fs (pathJoin outDir filename) = true →
    (handle_file flags fs tgt outDir dir filename pid env).outcome
        = .outputExists ∧
    (handle_file flags fs tgt outDir dir filename pid env).fs = fs ∧
    (handle_file flags fs tgt outDir dir filename pid env).flags = flags ∧
    (handle_file flags fs tgt outDir dir filename pid env).instr.probed = false ∧
    (handle_file flags fs tgt outDir dir filename pid env).instr.videoCalled
        = false ∧
    (handle_file flags fs tgt outDir dir filename pid env).instr.imageCalled
        = false := by
  intro flags fs tgt outDir dir filename pid env h1 h2 h3
  simp [handle_file, h1, h2, h3]

/-- Witness for C4 (amended) at a concrete already-produced output. -/
theorem c4_skip_exists_amended_witness :
    strStartsWith "a.jpg" "." = false ∧
    (okFileEnv 0).isFile = true ∧
    fsMem ["cam/a.jpg", "out/a.jpg"] (pathJoin "out" "a.jpg") = true ∧
    (handle_file initialFlags ["cam/a.jpg", "out/a.jpg"] 3000 "out" "cam"
        "a.jpg" "7" (okFileEnv 0)).outcome = .outputExists ∧
    (handle_file initialFlags ["cam/a.jpg", "out/a.jpg"] 3000 "out" "cam"
        "a.jpg" "7" (okFileEnv 0)).fs = ["cam/a.jpg", "out/a.jpg"] :=
  ⟨by decide, rfl, by decide,
    (c4_skip_exists_amended initialFlags ["cam/a.jpg", "out/a.jpg"] 3000 "out"
      "cam" "a.jpg" "7" (okFileEnv 0) (by decide) rfl (by decide)).1,
    (c4_skip_exists_amended initialFlags ["cam/a.jpg", "out/a.jpg"] 3000 "out"
      "cam" "a.jpg" "7" (okFileEnv 0) (by decide) rfl (by decide)).2.1⟩

/-- C5 counterexample: when the first file's probe reports the prober binary
missing, a following `.jpg` file in the same cycle is NOT processed (the
daemon also clears the ffmpeg flag, which gates image processing); the same
`.jpg` alone would have been processed. -/
theorem c5_jpg_suppressed_counterexample :
    ((run_files initialFlags [] 3000 "out" "cam" "7"
        [("a.mp4", okFileEnv (-1)), ("b.jpg", okFileEnv 0)]).2.2.map
        (fun so => so.outcome)) = [.probeMissing, .noFfmpegImage] ∧
    ((run_files initialFlags [] 3000 "out" "cam" "7"
        [("a.mp4", okFileEnv (-1)), ("b.jpg", okFileEnv 0)]).2.2.map
        (fun so => so.instr.imageCalled)) = [false, false] ∧
    ((run_files initialFlags [] 3000 "out" "cam" "7"
        [("b.jpg", okFileEnv 0)]).2.2.map (fun so => so.outcome))
        = [.imageDone false] :=
  ⟨by decide, by decide, by decide⟩

/-- C5 (amended): a probe returning the prober-missing sentinel clears both
the ffprobe and the ffmpeg flags without touching the filesystem, and for
the remainder of the cycle no file — `.mp4` OR `.jpg`/`.jpeg` — triggers a
probe, a video encode, or an image encode, because the cleared ffmpeg flag
gates all of them. -/
theorem c5_cycle_suppression_amended :
    (∀ (flags : Flags) (fs : FS) (tgt : ℚ) (outDir dir filename pid : String)
      (env : FileEnv),
      flags.ffmpeg_found = true →
      strStartsWith filename "." = false →
      env.isFile = true →
      fsMem fs (pathJoin outDir filename) = false →
      strEndsWith (strToLower filename) ".mp4" = true →
      env.probeKbps = -1 →
      (handle_file flags fs tgt outDir dir filename pid env).flags.ffprobe_found
          = false ∧
      (handle_file flags fs tgt outDir dir filename pid env).flags.ffmpeg_found
          = false ∧
      (handle_file flags fs tgt outDir dir filename pid env).instr.probed
          = true ∧
      (handle_file flags fs tgt outDir dir filename pid env).fs = fs) ∧
    (∀ (tgt : ℚ) (outDir dir pid : String) (files : List (String × FileEnv))
      (flags : Flags) (fs : FS),
      flags.ffmpeg_found = false →
      ∀ so ∈ (run_files flags fs tgt outDir dir pid files).2.2,
        so.instr.probed = false ∧ so.instr.videoCalled = false ∧
        so.instr.imageCalled = false) := by
  constructor
  · intro flags fs tgt outDir dir filename pid env hff h1 h2 h3 h4 h5
    simp [handle_file, h1, h2, h3, h4, hff, h5]
  · intro tgt outDir dir pid files flags fs h so hso
    exact run_files_noFfmpeg tgt outDir dir pid files flags fs h so hso

/-- Witness for C5 (amended): the probe-missing step and the suppressed
subsequent image file, at concrete inputs. -/
theorem c5_cycle_suppression_amended_witness :
    (initialFlags.ffmpeg_found = true ∧
     strStartsWith "a.mp4" "." = false ∧
     (okFileEnv (-1)).isFile = true ∧
     fsMem [] (pathJoin "out" "a.mp4") = false ∧
     strEndsWith (strToLower "a.mp4") ".mp4" = true ∧
     (okFileEnv (-1)).probeKbps = -1 ∧
     (handle_file initialFlags [] 3000 "out" "cam" "a.mp4" "7"
         (okFileEnv (-1))).flags.ffmpeg_found = false) ∧
    ((⟨true, false, true⟩ : Flags).ffmpeg_found = false ∧
     (⟨⟨true, false, true⟩, [], ⟨false, false, false, false, "out/b.jpg"⟩,
         .noFfmpegImage, false⟩ : StepOut) ∈
       (run_files ⟨true, false, true⟩ [] 3000 "out" "cam" "7"
         [("b.jpg", okFileEnv 0)]).2.2 ∧
     (⟨⟨true, false, true⟩, [], ⟨false, false, false, false, "out/b.jpg"⟩,
         .noFfmpegImage, false⟩ : StepOut).instr.imageCalled = false) :=
  ⟨⟨rfl, by decide, rfl, rfl, by decide, rfl,
     (c5_cycle_suppression_amended.1 initialFlags [] 3000 "out" "cam" "a.mp4"
       "7" (okFileEnv (-1)) rfl (by decide) rfl rfl (by decide) rfl).2.1⟩,
   ⟨rfl, by decide,
     (c5_cycle_suppression_amended.2 3000 "out" "cam" "7"
       [("b.jpg", okFileEnv 0)] ⟨true, false, true⟩ [] rfl
       ⟨⟨true, false, true⟩, [], ⟨false, false, false, false, "out/b.jpg"⟩,
         .noFfmpegImage, false⟩ (by decide)).2.2⟩⟩

/-- C6 counterexample: a cycle starting with all tool flags down and both
marker files present leaves every flag down, runs no version re-probe even
though both probes would succeed, and still skips an eligible video —
refuting "flags are reset at the start of every cycle, so a missing tool is
retried automatically in the next cycle". -/
theorem c6_no_reset_counterexample :
    (run_cycle ⟨⟨false, false, false⟩, true, true⟩ [] 3000 "out" "cam" "7"
        ⟨⟨.success, .success⟩, [("v.mp4", okFileEnv 5000)]⟩).1.flags
      = ⟨false, false, false⟩ ∧
    (run_cycle ⟨⟨false, false, false⟩, true, true⟩ [] 3000 "out" "cam" "7"
        ⟨⟨.success, .success⟩, [("v.mp4", okFileEnv 5000)]⟩).2.2.2.1 = false ∧
    (run_cycle ⟨⟨false, false, false⟩, true, true⟩ [] 3000 "out" "cam" "7"
        ⟨⟨.success, .success⟩, [("v.mp4", okFileEnv 5000)]⟩).2.2.2.2 = false ∧
    ((run_cycle ⟨⟨false, false, false⟩, true, true⟩ [] 3000 "out" "cam" "7"
        ⟨⟨.success, .success⟩, [("v.mp4", okFileEnv 5000)]⟩).2.2.1.map
        (fun so => so.outcome)) = [.noFfmpegVideo] :=
  ⟨by decide, by decide, by decide, by decide⟩

/-- C6 (amended): the tool flags are initialized once at startup and are
never reset at cycle start: `ffprobe_found` passes through the start-of-cycle
logic unchanged and, once false, stays false through the whole cycle; a down
ffmpeg flag whose marker file exists is neither re-probed nor restored; and
the one re-probe that can happen (flag down, no marker yet) creates the
marker, so it happens at most once in the life of the process. -/
theorem c6_flags_persist_amended :
    (∀ (st : CycleState) (env : RecheckEnv),
      (recheck st env).state.flags.ffprobe_found = st.flags.ffprobe_found) ∧
    (∀ (st : CycleState) (env : RecheckEnv),
      st.flags.ffmpeg_found = false → st.ffmpegMarker = true →
      (recheck st env).state.flags.ffmpeg_found = false ∧
      (recheck st env).ffmpegChecked = false) ∧
    (∀ (st : CycleState) (env : RecheckEnv),
      st.flags.ffmpeg_found = false → st.ffmpegMarker = false →
      (recheck st env).ffmpegChecked = true ∧
      (recheck st env).state.ffmpegMarker = true) ∧
    (∀ (st : CycleState) (fs : FS) (tgt : ℚ) (outDir dir pid : String)
      (env : CycleEnv),
      st.flags.ffprobe_found = false →
      (run_cycle st fs tgt outDir dir pid env).1.flags.ffprobe_found
        = false) := by
  refine ⟨?_, ?_, ?_, ?_⟩
  · intro st env
    rfl
  · intro st env hflag hmark
    constructor <;> simp [recheck, hflag, hmark]
  · intro st env hflag hmark
    constructor <;> simp [recheck, hflag, hmark]
  · intro st fs tgt outDir dir pid env h
    have hre : (recheck st env.re).state.flags.ffprobe_found = false := by
      rw [show (recheck st env.re).state.flags.ffprobe_found
          = st.flags.ffprobe_found from rfl]
      exact h
    exact run_files_ffprobe_mono tgt outDir dir pid env.files _ fs hre

/-- Witness for C6 (amended): a down ffmpeg flag with the marker present is
neither restored nor re-probed, at a concrete state. -/
theorem c6_flags_persist_amended_witness :
    (⟨⟨true, false, true⟩, true, true⟩ : CycleState).flags.ffmpeg_found
        = false ∧
    (⟨⟨true, false, true⟩, true, true⟩ : CycleState).ffmpegMarker = true ∧
    (recheck ⟨⟨true, false, true⟩, true, true⟩
        ⟨.success, .success⟩).state.flags.ffmpeg_found = false ∧
    (recheck ⟨⟨true, false, true⟩, true, true⟩
        ⟨.success, .success⟩).ffmpegChecked = false :=
  ⟨rfl, rfl,
    (c6_flags_persist_amended.2.1 ⟨⟨true, false, true⟩, true, true⟩
      ⟨.success, .success⟩ rfl rfl).1,
    (c6_flags_persist_amended.2.1 ⟨⟨true, false, true⟩, true, true⟩
      ⟨.success, .success⟩ rfl rfl).2⟩

/-- C7 counterexample: the image pipeline's two external commands contain no
orientation-forcing argument, no per-tag exclusion (no argument starting
with a double dash and no `-x`), and the exiftool invocation carries the
unconditional copy-all directive — refuting the claimed orientation and
thumbnail exclusion and the forcing of orientation to normal. -/
theorem c7_metadata_counterexample :
    ((image_pipeline_commands "cam/photo.jpg" "out/photo_temp_7.jpg" "7").all
      (fun c => c.all (fun a => a != "-Orientation=normal"))) = true ∧
    ((image_pipeline_commands "cam/photo.jpg" "out/photo_temp_7.jpg" "7").all
      (fun c => c.all (fun a => a != "-x"))) = true ∧
    ((image_pipeline_commands "cam/photo.jpg" "out/photo_temp_7.jpg" "7").all
      (fun c => c.all (fun a => ! strStartsWith a "--"))) = true ∧
    "-all:all>all:all" ∈ exiftool_copy_cmd "cam/photo.jpg" "out/photo_temp_7.jpg" :=
  ⟨by decide, by decide, by decide, by decide⟩

/-- C7 (amended): the metadata transfer copies all tags unconditionally
(carrying the copy-all directive) and no command of the image pipeline
forces the orientation tag to normal; orientation and thumbnails are copied
along with everything else. -/
theorem c7_metadata_amended :
    ∀ (input temp quality : String),
    "-Orientation=normal" ≠ input → "-Orientation=normal" ≠ temp →
    "-Orientation=normal" ≠ quality →
    (∀ c ∈ image_pipeline_commands input temp quality,
      "-Orientation=normal" ∉ c) ∧
    "-all:all>all:all" ∈ exiftool_copy_cmd input temp := by
  intro input temp quality h1 h2 h3
  constructor
  · intro c hc
    simp only [image_pipeline_commands, List.mem_cons, List.not_mem_nil,
      or_false] at hc
    rcases hc with rfl | rfl
    · simp [ffmpeg_image_cmd, h1, h2, h3]
    · simp [exiftool_copy_cmd, h1, h2, h3]
  · simp [exiftool_copy_cmd]

/-- Witness for C7 (amended) at concrete paths. -/
theorem c7_metadata_amended_witness :
    "-Orientation=normal" ≠ "cam/p.jpg" ∧
    "-Orientation=normal" ≠ "out/p_temp_7.jpg" ∧
    "-Orientation=normal" ≠ "7" ∧
    "-Orientation=normal" ∉ exiftool_copy_cmd "cam/p.jpg" "out/p_temp_7.jpg" ∧
    "-all:all>all:all" ∈ exiftool_copy_cmd "cam/p.jpg" "out/p_temp_7.jpg" :=
  ⟨by decide, by decide, by decide,
    (c7_metadata_amended "cam/p.jpg" "out/p_temp_7.jpg" "7" (by decide)
      (by decide) (by decide)).1
      (exiftool_copy_cmd "cam/p.jpg" "out/p_temp_7.jpg") (by decide),
    (c7_metadata_amended "cam/p.jpg" "out/p_temp_7.jpg" "7" (by decide)
      (by decide) (by decide)).2⟩

/-- C8 counterexample: after a successful encode and metadata copy, a
failing delete of the original leaves the executor returning normally with
only a warning; the main loop records the file as successfully processed
(outcome videoDone with the warning flag, counted in the cycle tally), not
as a Failed outcome, while both output and input remain on disk. -/
theorem c8_remove_failure_counterexample :
    (process_video_file ["cam/v.mp4"] ⟨⟨.success, false⟩, .success, false⟩
        "cam/v.mp4" "out/v.mp4") = (["out/v.mp4", "cam/v.mp4"], .ok true) ∧
    (handle_file initialFlags ["cam/v.mp4"] 3000 "out" "cam" "v.mp4" "7"
        (removeFailFileEnv 0)).outcome = .videoDone true ∧
    (handle_file initialFlags ["cam/v.mp4"] 3000 "out" "cam" "v.mp4" "7"
        (removeFailFileEnv 0)).counted = true ∧
    fsMem (handle_file initialFlags ["cam/v.mp4"] 3000 "out" "cam" "v.mp4" "7"
        (removeFailFileEnv 0)).fs "out/v.mp4" = true ∧
    fsMem (handle_file initialFlags ["cam/v.mp4"] 3000 "out" "cam" "v.mp4" "7"
        (removeFailFileEnv 0)).fs "cam/v.mp4" = true :=
  ⟨by decide, by decide, by decide, by decide, by decide⟩

/-- C8 (amended): when deleting the original fails after a successful encode
and metadata transfer, the executor returns normally with the warning flag
set (the OSError is caught and logged as a warning, not reported as a
failure), the produced output stays in place, and the input also remains —
for both the video and the image pipeline. -/
theorem c8_remove_failure_amended :
    (∀ (fs : FS) (inp out : String) (pb : Bool),
      fsMem fs inp = true → fsMem fs out = false → inp ≠ out →
      (process_video_file fs ⟨⟨.success, pb⟩, .success, false⟩ inp out).2
          = .ok true ∧
      fsMem (process_video_file fs ⟨⟨.success, pb⟩, .success, false⟩ inp out).1
          out = true ∧
      fsMem (process_video_file fs ⟨⟨.success, pb⟩, .success, false⟩ inp out).1
          inp = true) ∧
    (∀ (fs : FS) (inp out temp : String) (pb : Bool),
      fsMem fs inp = true → fsMem fs out = false → fsMem fs temp = false →
      inp ≠ out → inp ≠ temp → out ≠ temp →
      (process_image_file fs ⟨⟨.success, pb⟩, .success, true, false⟩
          inp out temp).2 = .ok true ∧
      fsMem (process_image_file fs ⟨⟨.success, pb⟩, .success, true, false⟩
          inp out temp).1 out = true ∧
      fsMem (process_image_file fs ⟨⟨.success, pb⟩, .success, true, false⟩
          inp out temp).1 inp = true ∧
      fsMem (process_image_file fs ⟨⟨.success, pb⟩, .success, true, false⟩
          inp out temp).1 temp = false) := by
  constructor
  · intro fs inp out pb hin hout hne
    simp_all [process_video_file, compress_video, copy_metadata_exiftool,
      fsMem_fsAdd_ne]
  · intro fs inp out temp pb hin hout htemp hio hit hot
    simp_all [process_image_file, runImageEncode, copy_metadata_exiftool,
      fsMem_fsRemove_ne, fsMem_fsAdd_ne]

/-- Witness for C8 (amended) at a concrete video input. -/
theorem c8_remove_failure_amended_witness :
    fsMem ["cam/v.mp4"] "cam/v.mp4" = true ∧
    fsMem ["cam/v.mp4"] "out/v.mp4" = false ∧
    "cam/v.mp4" ≠ "out/v.mp4" ∧
    (process_video_file ["cam/v.mp4"] ⟨⟨.success, false⟩, .success, false⟩
        "cam/v.mp4" "out/v.mp4").2 = .ok true ∧
    fsMem (process_video_file ["cam/v.mp4"] ⟨⟨.success, false⟩, .success, false⟩
        "cam/v.mp4" "out/v.mp4").1 "out/v.mp4" = true :=
  ⟨by decide, by decide, by decide,
    (c8_remove_failure_amended.1 ["cam/v.mp4"] "cam/v.mp4" "out/v.mp4" false
      (by decide) (by decide) (by decide)).1,
    (c8_remove_failure_amended.1 ["cam/v.mp4"] "cam/v.mp4" "out/v.mp4" false
      (by decide) (by decide) (by decide)).2.1⟩

/-- C9 counterexample: the image `photo.jpg` is published as
`out/photo.jpg`, not under a format-substituted name such as `photo.avif`
that §4.3 of the spec describes for a configured avif output format. -/
theorem c9_output_name_counterexample :
    (handle_file initialFlags [] 3000 "out" "cam" "photo.jpg" "7"
        (okFileEnv 0)).instr.outputPath = "out/photo.jpg" ∧
    (handle_file initialFlags [] 3000 "out" "cam" "photo.jpg" "7"
        (okFileEnv 0)).outcome = .imageDone false ∧
    spec_image_output_name "photo.jpg" "avif" = "photo.avif" ∧
    pathJoin "out" (spec_image_output_name "photo.jpg" "avif")
      ≠ "out/photo.jpg" :=
  ⟨by decide, by decide, by decide, by decide⟩

/-- C9 (amended): for every scanned file — image, video or unsupported —
the output path the loop computes is the output directory joined with the
unchanged input filename; no extension substitution exists. -/
theorem c9_output_name_amended :
    ∀ (flags : Flags) (fs : FS) (tgt : ℚ) (outDir dir filename pid : String)
      (env : FileEnv),
    (handle_file flags fs tgt outDir dir filename pid env).instr.outputPath
      = pathJoin outDir filename := by
  intro flags fs tgt outDir dir filename pid env
  by_cases h1 : strStartsWith filename "." = true
  · simp_all [handle_file]
  · by_cases h2 : env.isFile = false
    · simp_all [handle_file]
    · by_cases h3 : fsMem fs (pathJoin outDir filename) = true
      · simp_all [handle_file]
      · by_cases h4 : strEndsWith (strToLower filename) ".mp4" = true
        · by_cases h5 : flags.ffmpeg_found = false
          · simp_all [handle_file]
          · by_cases h6 : env.probeKbps = -1
            · simp_all [handle_file]
            · by_cases h7 : env.probeKbps = 0 ∨ env.probeKbps > tgt * (11 / 10)
              · simp_all [handle_file, videoStep_instr]
              · have h7b : ¬ tgt * (11 / 10) < env.probeKbps := by
                  push_neg at h7
                  exact not_lt.mpr h7.2
                by_cases h8 : env.renameOk = true
                · simp_all [handle_file, if_neg h7b]
                · simp_all [handle_file, if_neg h7b]
        · by_cases h9 : strEndsWith (strToLower filename) ".jpg" = true ∨
              strEndsWith (strToLower filename) ".jpeg" = true
          · by_cases h5 : flags.ffmpeg_found = false
            · simp_all [handle_file]
            · simp_all [handle_file, imageStep_instr]
          · simp_all [handle_file]

/-- C10 counterexample: a successful probe whose stdout is "-1000" makes
`get_video_bitrate` return -1 — a negative value colliding with the
ffprobe-missing sentinel — even though ffprobe ran successfully, refuting
both "returns -1 exactly when the executable cannot be found" and
"otherwise returns a non-negative kbps value". -/
theorem c10_probe_counterexample :
    get_video_bitrate (.success "-1000") .raises = -1 ∧
    ProbeRun.success "-1000" ≠ ProbeRun.notFound := by
  constructor
  · simp [get_video_bitrate, pyStrip, pyInt?, pyDigitsAux]
  · decide

/-- C10 (amended): `get_video_bitrate` is total over the modelled probe
outcomes; it returns -1 whenever ffprobe cannot be found; every
`CalledProcessError` path yields a non-negative value and any other
exception yields 0; a successful probe yields 0 on "N/A" or a non-numeric
stdout and otherwise (parsed bps)/1000, which is non-negative whenever the
reported value is non-negative — but a negative reported value is returned
as-is, so -1 is not exclusively the missing-tool sentinel. -/
theorem c10_probe_amended :
    ∀ (run : ProbeRun) (fb : FallbackRun),
    (run = .notFound → get_video_bitrate run fb = -1) ∧
    (∀ (na : Bool) (m : Option ℕ), run = .cpe na m →
      0 ≤ get_video_bitrate run fb) ∧
    (run = .otherExc → get_video_bitrate run fb = 0) ∧
    (∀ out, run = .success out → pyStrip out = "N/A" →
      get_video_bitrate run fb = 0) ∧
    (∀ out, run = .success out → pyStrip out ≠ "N/A" →
      pyInt? (pyStrip out) = none → get_video_bitrate run fb = 0) ∧
    (∀ out n, run = .success out → pyStrip out ≠ "N/A" →
      pyInt? (pyStrip out) = some n →
      get_video_bitrate run fb = (n : ℚ) / 1000) ∧
    (∀ out n, run = .success out → pyStrip out ≠ "N/A" →
      pyInt? (pyStrip out) = some n → 0 ≤ n →
      0 ≤ get_video_bitrate run fb) := by
  intro run fb
  refine ⟨?_, ?_, ?_, ?_, ?_, ?_, ?_⟩
  · rintro rfl
    rfl
  · rintro na m rfl
    rcases na with _ | _
    · rcases m with _ | k
      · rcases fb with m2 | _
        · rcases m2 with _ | k2
          · simp [get_video_bitrate]
          · simp [get_video_bitrate]
        · simp [get_video_bitrate]
      · simp [get_video_bitrate]
    · simp [get_video_bitrate]
  · rintro rfl
    rfl
  · rintro out rfl hna
    simp [get_video_bitrate, hna]
  · rintro out rfl hna hparse
    simp [get_video_bitrate, hna, hparse]
  · rintro out n rfl hna hparse
    simp [get_video_bitrate, hna, hparse]
  · rintro out n rfl hna hparse hn
    simp [get_video_bitrate, hna, hparse]
    positivity

/-- Witness for C10 (amended): the missing-ffprobe branch at a concrete
environment. -/
theorem c10_probe_amended_witness :
    (ProbeRun.notFound : ProbeRun) = .notFound ∧
    get_video_bitrate .notFound .raises = -1 :=
  ⟨rfl, (c10_probe_amended .notFound .raises).1 rfl⟩

end CompressMedia
